import Mathlib

/-!
Verification development for the Munder Difflin multi-agent order-processing
repository.  The workflow coordinator (`OrchestratorAgent` in
`src/agents/orchestrator_agent.py`), its stage parsers, the quote generator
(`src/tools/quote_tools.py`) and the fulfillment tool
(`src/tools/fulfillment_tools.py`) are embedded shallowly below: stateful
Python code becomes explicit state passing, fallible code returns
`Option`/`Except`, and Python floats are modelled as exact unnormalized
fractions (`PyNum`), since no verified property depends on IEEE rounding.
-/

/-- Literal left-brace character (ASCII 123). -/
def lbrace : Char := Char.ofNat 123

/-- Literal right-brace character (ASCII 125). -/
def rbrace : Char := Char.ofNat 125

/-- Exact numeric model of the Python numbers appearing in the program
(ints and decimal float literals): an unnormalized fraction.  The programs
under study only construct, add, subtract and multiply such numbers. -/
structure PyNum where
  num : Int
  den : Nat
  deriving Repr, DecidableEq

/-- Embed an integer. -/
def PyNum.ofInt (n : Int) : PyNum := ⟨n, 1⟩

def PyNum.mul (a b : PyNum) : PyNum := ⟨a.num * b.num, a.den * b.den⟩

def PyNum.add (a b : PyNum) : PyNum :=
  ⟨a.num * (b.den : Int) + b.num * (a.den : Int), a.den * b.den⟩

def PyNum.sub (a b : PyNum) : PyNum :=
  ⟨a.num * (b.den : Int) - b.num * (a.den : Int), a.den * b.den⟩

/-- Display rendering of a number (formatting concern only; no verified
property depends on the exact rendering of numbers). -/
def PyNum.render (a : PyNum) : String :=
  if a.den = 1 then toString a.num else toString a.num ++ ("/") ++ toString a.den

/-- JSON values, as produced by Python `json.loads`. -/
inductive Json where
  | null : Json
  | bool : Bool → Json
  | num : PyNum → Json
  | str : String → Json
  | arr : List Json → Json
  | obj : List (String × Json) → Json
  deriving Repr

/-- Key lookup in a decoded JSON object.  Python `dict` keeps the last
binding for a duplicated key, hence the reversed search. -/
def objLookup (kvs : List (String × Json)) (k : String) : Option Json :=
  ((kvs.reverse).find? (fun p => p.1 == k)).map (fun p => p.2)

/-- JSON whitespace according to RFC 8259 / Python `json`. -/
def isJsonWs (c : Char) : Bool :=
  c == ' ' || c == '\t' || c == '\n' || c == '\r'

def skipWs (cs : List Char) : List Char := cs.dropWhile isJsonWs

def hexVal? (c : Char) : Option Nat :=
  if '0' ≤ c ∧ c ≤ '9' then some (c.toNat - 48)
  else if 'a' ≤ c ∧ c ≤ 'f' then some (c.toNat - 87)
  else if 'A' ≤ c ∧ c ≤ 'F' then some (c.toNat - 55)
  else none

/-- Body of a JSON string after the opening quote: handles the escape
sequences Python `json.loads` accepts and rejects raw control characters. -/
def parseJStr (acc : List Char) : List Char → Option (String × List Char)
  | [] => none
  | '"' :: rest => some (String.mk acc.reverse, rest)
  | '\\' :: '"' :: rest => parseJStr ('"' :: acc) rest
  | '\\' :: '\\' :: rest => parseJStr ('\\' :: acc) rest
  | '\\' :: '/' :: rest => parseJStr ('/' :: acc) rest
  | '\\' :: 'b' :: rest => parseJStr (Char.ofNat 8 :: acc) rest
  | '\\' :: 'f' :: rest => parseJStr (Char.ofNat 12 :: acc) rest
  | '\\' :: 'n' :: rest => parseJStr ('\n' :: acc) rest
  | '\\' :: 'r' :: rest => parseJStr ('\r' :: acc) rest
  | '\\' :: 't' :: rest => parseJStr ('\t' :: acc) rest
  | '\\' :: 'u' :: a :: b :: c :: d :: rest =>
    match hexVal? a, hexVal? b, hexVal? c, hexVal? d with
    | some ha, some hb, some hc, some hd =>
      parseJStr (Char.ofNat (((ha * 16 + hb) * 16 + hc) * 16 + hd) :: acc) rest
    | _, _, _, _ => none
  | '\\' :: _ => none
  | c :: rest => if c.toNat < 32 then none else parseJStr (c :: acc) rest

def natOfDigits (ds : List Char) : Nat :=
  ds.foldl (fun a c => a * 10 + (c.toNat - 48)) 0

/-- JSON number: optional minus, integer part, optional fraction, optional
exponent; yields an exact fraction. -/
def parseJNum (cs : List Char) : Option (PyNum × List Char) :=
  let (neg, cs1) :=
    match cs with
    | '-' :: rest => (true, rest)
    | _ => (false, cs)
  let (ip, cs2) := cs1.span Char.isDigit
  if ip.isEmpty then none else
  let (fp, cs3) :=
    match cs2 with
    | '.' :: rest =>
      let (ds, r) := rest.span Char.isDigit
      (ds, if ds.isEmpty then cs2 else r)
    | _ => ([], cs2)
  match cs2, fp with
  | '.' :: _, [] => none
  | _, _ =>
    let mantissa : Int := Int.ofNat (natOfDigits ip * 10 ^ fp.length + natOfDigits fp)
    let mantissa := if neg then -mantissa else mantissa
    let base : PyNum := ⟨mantissa, 10 ^ fp.length⟩
    match cs3 with
    | 'e' :: rest =>
      let (eneg, r1) :=
        match rest with
        | '-' :: r => (true, r)
        | '+' :: r => (false, r)
        | _ => (false, rest)
      let (eds, r2) := r1.span Char.isDigit
      if eds.isEmpty then none
      else
        let e := natOfDigits eds
        if eneg then some (⟨base.num, base.den * 10 ^ e⟩, r2)
        else some (⟨base.num * (10 : Int) ^ e, base.den⟩, r2)
    | 'E' :: rest =>
      let (eneg, r1) :=
        match rest with
        | '-' :: r => (true, r)
        | '+' :: r => (false, r)
        | _ => (false, rest)
      let (eds, r2) := r1.span Char.isDigit
      if eds.isEmpty then none
      else
        let e := natOfDigits eds
        if eneg then some (⟨base.num, base.den * 10 ^ e⟩, r2)
        else some (⟨base.num * (10 : Int) ^ e, base.den⟩, r2)
    | _ => some (base, cs3)

mutual

/-- Recursive-descent JSON value parser with explicit fuel. -/
def parseJVal (fuel : Nat) (cs : List Char) : Option (Json × List Char) :=
  match fuel with
  | 0 => none
  | fuel + 1 =>
    match skipWs cs with
    | 'n' :: 'u' :: 'l' :: 'l' :: rest => some (Json.null, rest)
    | 't' :: 'r' :: 'u' :: 'e' :: rest => some (Json.bool true, rest)
    | 'f' :: 'a' :: 'l' :: 's' :: 'e' :: rest => some (Json.bool false, rest)
    | '"' :: rest =>
      match parseJStr [] rest with
      | some (s, rest') => some (Json.str s, rest')
      | none => none
    | c :: rest =>
      if c = lbrace then
        match skipWs rest with
        | c' :: rest' =>
          if c' = rbrace then some (Json.obj [], rest')
          else
            match parseJMembers fuel (c' :: rest') with
            | some (kvs, rest'') => some (Json.obj kvs, rest'')
            | none => none
        | [] => none
      else if c = '[' then
        match skipWs rest with
        | ']' :: rest' => some (Json.arr [], rest')
        | other =>
          match parseJElems fuel other with
          | some (xs, rest') => some (Json.arr xs, rest')
          | none => none
      else if Char.isDigit c ∨ c = '-' then
        match parseJNum (c :: rest) with
        | some (q, rest') => some (Json.num q, rest')
        | none => none
      else none
    | [] => none

/-- Members of a JSON object, positioned at the first key. -/
def parseJMembers (fuel : Nat) (cs : List Char) : Option (List (String × Json) × List Char) :=
  match fuel with
  | 0 => none
  | fuel + 1 =>
    match skipWs cs with
    | '"' :: rest =>
      match parseJStr [] rest with
      | some (k, rest') =>
        match skipWs rest' with
        | ':' :: rest'' =>
          match parseJVal fuel rest'' with
          | some (v, rest3) =>
            match skipWs rest3 with
            | ',' :: rest4 =>
              match parseJMembers fuel rest4 with
              | some (kvs, rest5) => some ((k, v) :: kvs, rest5)
              | none => none
            | c :: rest4 =>
              if c = rbrace then some ([(k, v)], rest4) else none
            | [] => none
          | none => none
        | _ => none
      | none => none
    | _ => none

/-- Elements of a JSON array, positioned at the first element. -/
def parseJElems (fuel : Nat) (cs : List Char) : Option (List Json × List Char) :=
  match fuel with
  | 0 => none
  | fuel + 1 =>
    match parseJVal fuel cs with
    | some (v, rest) =>
      match skipWs rest with
      | ',' :: rest' =>
        match parseJElems fuel rest' with
        | some (xs, rest'') => some (v :: xs, rest'')
        | none => none
      | ']' :: rest' => some ([v], rest')
      | _ => none
    | none => none

end

/-- Python `json.loads`: decode a whole string as one JSON value, allowing
surrounding whitespace and rejecting trailing data. -/
def json_loads (s : String) : Option Json :=
  match parseJVal (s.length + 2) s.toList with
  | some (v, rest) => if (skipWs rest).isEmpty then some v else none
  | none => none

/-- The span matched by the Python regex search for `\x7b.*\x7d` with
`re.DOTALL`: from the first left brace to the last right brace, empty when
no such (first `\x7b`, later `\x7d`) pair exists. -/
def brace_span (cs : List Char) : List Char :=
  (((cs.dropWhile (fun c => c != lbrace)).reverse.dropWhile (fun c => c != rbrace)).reverse)

/-- Model of `OrchestratorAgent._extract_json_from_response`: find the greedy brace
span, decode it with `json.loads`, and return the decoded object, or the
empty mapping when there is no span or decoding fails.  (The decoded value
is necessarily an object because the span starts with a left brace.) -/
def extract_json_from_response (response : String) : List (String × Json) :=
  let span := brace_span response.toList
  if span.isEmpty then []
  else
    match json_loads (String.mk span) with
    | some (Json.obj kvs) => kvs
    | _ => []

/-! ## Typed stage records (the pydantic `BaseModel`s of the orchestrator) -/

/-- Pydantic model `InventoryStatus`: `items: Dict[str, int]`,
`low_stock: list`, `reorder_required: bool`, `restock_date: str = None`.
The first three fields have no default, so a mapping lacking any of them
fails validation; `restock_date` is optional and defaults to `None`. -/
structure InventoryStatus where
  items : List (String × Int)
  low_stock : List Json
  reorder_required : Bool
  restock_date : Option String
  deriving Repr

/-- Pydantic model `QuoteDetails`. -/
structure QuoteDetails where
  total_price : PyNum
  itemized_breakdown : List Json
  discount_applied : String
  deriving Repr

/-- Pydantic model `CustomerDecision`. -/
structure CustomerDecision where
  decision : String
  reason : String
  deriving Repr, DecidableEq

/-- Pydantic model `FulfillmentReceipt`. -/
structure FulfillmentReceipt where
  status : String
  transaction_id : String
  delivery_date : String
  deriving Repr, DecidableEq

def asStr : Json → Option String
  | Json.str s => some s
  | _ => none

def asBool : Json → Option Bool
  | Json.bool b => some b
  | _ => none

/-- Validate an integer field: JSON integers, and integral floats, which
pydantic coerces to `int`. -/
def asInt : Json → Option Int
  | Json.num q =>
    if (q.den : Int) ∣ q.num then some (q.num / (q.den : Int)) else none
  | _ => none

def asNum : Json → Option PyNum
  | Json.num q => some q
  | _ => none

def asList : Json → Option (List Json)
  | Json.arr xs => some xs
  | _ => none

def asStrIntPairs (kvs : List (String × Json)) : Option (List (String × Int)) :=
  kvs.mapM (fun p => (asInt p.2).map (fun n => (p.1, n)))

def asItemsMap : Json → Option (List (String × Int))
  | Json.obj kvs => asStrIntPairs kvs
  | _ => none

/-- Constructor call `InventoryStatus(**data)`: validated construction from a decoded
mapping, `none` on any missing required field or type mismatch (pydantic
raises `ValidationError`, which the caller catches). -/
def tryMkInventoryStatus (d : List (String × Json)) : Option InventoryStatus :=
  match objLookup d ("items"), objLookup d ("low_stock"),
        objLookup d ("reorder_required") with
  | some ji, some jl, some jr =>
    match asItemsMap ji, asList jl, asBool jr with
    | some items, some ls, some rr =>
      match objLookup d ("restock_date") with
      | none => some ⟨items, ls, rr, none⟩
      | some Json.null => some ⟨items, ls, rr, none⟩
      | some js => (asStr js).map (fun s => ⟨items, ls, rr, some s⟩)
    | _, _, _ => none
  | _, _, _ => none

/-- Constructor call `QuoteDetails(**data)`. -/
def tryMkQuoteDetails (d : List (String × Json)) : Option QuoteDetails :=
  match objLookup d ("total_price"), objLookup d ("itemized_breakdown"),
        objLookup d ("discount_applied") with
  | some jt, some ji, some jd =>
    match asNum jt, asList ji, asStr jd with
    | some t, some items, some disc => some ⟨t, items, disc⟩
    | _, _, _ => none
  | _, _, _ => none

/-- Constructor call `CustomerDecision(**data)`. -/
def tryMkCustomerDecision (d : List (String × Json)) : Option CustomerDecision :=
  match objLookup d ("decision"), objLookup d ("reason") with
  | some jd, some jr =>
    match asStr jd, asStr jr with
    | some dec, some reason => some ⟨dec, reason⟩
    | _, _ => none
  | _, _ => none

/-- Constructor call `FulfillmentReceipt(**data)`. -/
def tryMkFulfillmentReceipt (d : List (String × Json)) : Option FulfillmentReceipt :=
  match objLookup d ("status"), objLookup d ("transaction_id"),
        objLookup d ("delivery_date") with
  | some js, some jt, some jd =>
    match asStr js, asStr jt, asStr jd with
    | some s, some t, some dd => some ⟨s, t, dd⟩
    | _, _, _ => none
  | _, _, _ => none

/-! ## The four stage parsers -/

def default_inventory : InventoryStatus := ⟨[], [], false, some ("")⟩

def default_quote : QuoteDetails := ⟨⟨0, 10⟩, [], ("0%")⟩

def default_decision : CustomerDecision := ⟨("DECLINE"), ("Unable to parse decision")⟩

def default_fulfillment : FulfillmentReceipt := ⟨("pending"), ("N/A"), ("TBD")⟩

/-- Model of `OrchestratorAgent._parse_inventory_response`. -/
def parse_inventory_response (response : String) : InventoryStatus :=
  let data := extract_json_from_response response
  if data.isEmpty then default_inventory
  else (tryMkInventoryStatus data).getD default_inventory

/-- Model of `OrchestratorAgent._parse_quote_response`. -/
def parse_quote_response (response : String) : QuoteDetails :=
  let data := extract_json_from_response response
  if data.isEmpty then default_quote
  else (tryMkQuoteDetails data).getD default_quote

/-- Python `str.upper` (the sources only ever compare ASCII). -/
def strUpper (s : String) : String := String.mk (s.toList.map Char.toUpper)

/-- Python `str.lower`. -/
def strLower (s : String) : String := String.mk (s.toList.map Char.toLower)

/-- Python `str.split(sep)` for a one-character separator: splits at every
occurrence, keeping empty pieces. -/
def splitOnChar (sep : Char) : List Char → List (List Char)
  | [] => [[]]
  | c :: rest =>
    if c = sep then [] :: splitOnChar sep rest
    else
      match splitOnChar sep rest with
      | h :: t => (c :: h) :: t
      | [] => [[c]]

/-- Lexicographic comparison of strings as character lists (ISO date
strings compare chronologically this way). -/
def listLe : List Char → List Char → Bool
  | [], _ => true
  | _ :: _, [] => false
  | a :: as, b :: bs => if a < b then true else if b < a then false else listLe as bs

def strLe (a b : String) : Bool := listLe a.toList b.toList

/-- Substring test (Python `in` on strings). -/
def isSubstrList : List Char → List Char → Bool
  | n, [] => n.isEmpty
  | n, c :: rest => n.isPrefixOf (c :: rest) || isSubstrList n rest

def containsSubstr (hay needle : String) : Bool :=
  isSubstrList needle.toList hay.toList

/-- Tier 2 of `_parse_customer_decision`: scan `response.upper()` for the
literal decision lines; the reason is `response.split(chr(10))[1]` when the
response has a newline, else a fixed placeholder.  Falling through both
scans lands on the documented default. -/
def decision_tier2 (response : String) : CustomerDecision :=
  if containsSubstr (strUpper response) ("DECISION: APPROVE") then
    ⟨("APPROVE"),
      if response.toList.contains ('\n') then
        (((splitOnChar ('\n') response.toList).map String.mk).get? 1).getD ("")
      else ("Approved")⟩
  else if containsSubstr (strUpper response) ("DECISION: DECLINE") then
    ⟨("DECLINE"),
      if response.toList.contains ('\n') then
        (((splitOnChar ('\n') response.toList).map String.mk).get? 1).getD ("")
      else ("Declined")⟩
  else default_decision

/-- Model of `OrchestratorAgent._parse_customer_decision`: tier 1 accepts the
decoded mapping only when it has a `decision` key; a construction failure
there is an exception in the source, caught by the handler that returns the
default — tier 2 is not attempted in that case. -/
def parse_customer_decision (response : String) : CustomerDecision :=
  let data := extract_json_from_response response
  if data.isEmpty then decision_tier2 response
  else if (objLookup data ("decision")).isSome then
    (tryMkCustomerDecision data).getD default_decision
  else decision_tier2 response

/-- Model of `OrchestratorAgent._parse_fulfillment_response`. -/
def parse_fulfillment_response (response : String) : FulfillmentReceipt :=
  let data := extract_json_from_response response
  if data.isEmpty then default_fulfillment
  else (tryMkFulfillmentReceipt data).getD default_fulfillment

/-! ## Rendering helpers

The coordinator interpolates parsed records back into the prompt strings of
later stages and into the final summary.  Per the nature of these strings
(free-form prompts for opaque text-in/text-out participants) no verified
property depends on their exact layout; the renderings below mirror the
shape of the Python f-strings. -/

def joinComma : List String → String
  | [] => ""
  | [x] => x
  | x :: xs => x ++ (", ") ++ joinComma xs

mutual

def jsonRepr : Json → String
  | Json.null => "None"
  | Json.bool true => "True"
  | Json.bool false => "False"
  | Json.num q => q.render
  | Json.str s => "\x27" ++ s ++ "\x27"
  | Json.arr xs => "[" ++ jsonReprList xs ++ "]"
  | Json.obj kvs => "\x7b" ++ jsonReprPairs kvs ++ "\x7d"

def jsonReprList : List Json → String
  | [] => ""
  | [x] => jsonRepr x
  | x :: xs => jsonRepr x ++ (", ") ++ jsonReprList xs

def jsonReprPairs : List (String × Json) → String
  | [] => ""
  | [p] => "\x27" ++ p.1 ++ "\x27: " ++ jsonRepr p.2
  | p :: ps => "\x27" ++ p.1 ++ "\x27: " ++ jsonRepr p.2 ++ (", ") ++ jsonReprPairs ps

end

def itemsRepr (items : List (String × Int)) : String :=
  "\x7b" ++ joinComma (items.map (fun p => "\x27" ++ p.1 ++ "\x27: " ++ toString p.2)) ++ "\x7d"

def InventoryStatus.render (v : InventoryStatus) : String :=
  "\x7b\x27items\x27: " ++ itemsRepr v.items
    ++ (", \x27low_stock\x27: [") ++ jsonReprList v.low_stock
    ++ ("], \x27reorder_required\x27: ") ++ (if v.reorder_required then "True" else "False")
    ++ (", \x27restock_date\x27: ")
    ++ (match v.restock_date with
        | none => "None"
        | some s => "\x27" ++ s ++ "\x27")
    ++ "\x7d"

/-! ## The workflow coordinator (`OrchestratorAgent.process_customer_request`) -/

/-- The four opaque external participants; a thrown error from `run` is an
`Except.error` carrying the error text. -/
structure Participants where
  inventory : String → Except String String
  quote : String → Except String String
  customer : String → Except String String
  fulfillment : String → Except String String

/-- Prompt context for the quote stage (STEP 2). -/
def quote_context (customer_request inventory_response : String) : String :=
  ("Customer request: ") ++ customer_request ++ ("\nInventory Status: ")
    ++ (parse_inventory_response inventory_response).render

/-- Prompt context for the customer decision stage (STEP 3). -/
def customer_context (quote_response : String) : String :=
  let q := parse_quote_response quote_response
  ("Review this quote and decide:\nTotal Price: $") ++ q.total_price.render
    ++ ("\nItems: [") ++ jsonReprList q.itemized_breakdown
    ++ ("]\nDiscount: ") ++ q.discount_applied

/-- Prompt context for the fulfillment stage (STEP 4, approved branch);
the delivery date is the inventory `restock_date` when truthy, else the
request date. -/
def fulfillment_context (customer_request request_date inventory_response quote_response : String) :
    String :=
  let inv := parse_inventory_response inventory_response
  let q := parse_quote_response quote_response
  ("Customer approved the order.\n\nRequest: ") ++ customer_request
    ++ ("\nQuote Details: Total $") ++ q.total_price.render
    ++ (", Items: [") ++ jsonReprList q.itemized_breakdown
    ++ ("]\nRequest Date: ") ++ request_date
    ++ ("\nDelivery Date: ")
    ++ (match inv.restock_date with
        | some s => if s = "" then request_date else s
        | none => request_date)

/-- The outcome reconciliation of lines 225-230: `success` (compared on
the lowercased status) forces `fulfilled`; otherwise `fulfilled` is the
literal boolean `(decision.upper() == APPROVE) and (status.lower() !=
pending)`.  Also produces the `fulfillment_details` string. -/
def reconcile (cd : CustomerDecision) (fr : FulfillmentReceipt) : Bool × String :=
  if (strLower fr.status) == ("success") then
    (true, ("Order fulfilled with Transaction ID: ") ++ fr.transaction_id
      ++ (", Delivery: ") ++ fr.delivery_date)
  else
    (((strUpper cd.decision) == ("APPROVE")) && ((strLower fr.status) != ("pending")),
      ("Status: ") ++ fr.status ++ (", Transaction: ") ++ fr.transaction_id)

/-- The final four-stage summary (formatting concern only). -/
def final_summary (inv : InventoryStatus) (q : QuoteDetails) (cd : CustomerDecision)
    (fd : FulfillmentReceipt) : String :=
  ("ORDER PROCESSING COMPLETE\nSTEP 1 - INVENTORY STATUS\n  Available Items: ")
    ++ itemsRepr inv.items
    ++ ("\n  Low Stock Items: [") ++ jsonReprList inv.low_stock
    ++ ("]\n  Reorder Required: ") ++ (if inv.reorder_required then "True" else "False")
    ++ ("\n  Restock Date: ")
    ++ (match inv.restock_date with
        | none => "None"
        | some s => s)
    ++ ("\nSTEP 2 - PRICING QUOTE\n  Total Price: $") ++ q.total_price.render
    ++ ("\n  Discount Applied: ") ++ q.discount_applied
    ++ ("\n  Itemized Breakdown: [") ++ jsonReprList q.itemized_breakdown
    ++ ("]\nSTEP 3 - CUSTOMER DECISION\n  Decision: ") ++ cd.decision
    ++ ("\n  Reason: ") ++ cd.reason
    ++ ("\nSTEP 4 - ORDER FULFILLMENT\n  Status: ") ++ fd.status
    ++ ("\n  Transaction ID: ") ++ fd.transaction_id
    ++ ("\n  Delivery Date: ") ++ fd.delivery_date
    ++ ("\nEND OF ORDER PROCESSING")

/-- All the per-run local state of `process_customer_request` on the
non-aborting path, made explicit. -/
structure RunTrace where
  inventory_response : String
  inventory_data : InventoryStatus
  quote_response : String
  quote_data : QuoteDetails
  customer_response : String
  customer_decision : CustomerDecision
  fulfillment_response : String
  fulfillment_data : FulfillmentReceipt
  fulfilled : Bool
  fulfillment_details : String
  final_response : String
  deriving Repr

/-- Shared tail of the workflow after the fulfillment response text is
known (real participant output or the synthesized declined stand-in). -/
def finish_trace (inventory_response quote_response customer_response fulfillment_response : String) :
    RunTrace :=
  let inv := parse_inventory_response inventory_response
  let q := parse_quote_response quote_response
  let cd := parse_customer_decision customer_response
  let fd := parse_fulfillment_response fulfillment_response
  let outcome := reconcile cd fd
  ⟨inventory_response, inv, quote_response, q, customer_response, cd,
    fulfillment_response, fd, outcome.1, outcome.2, final_summary inv q cd fd⟩

/-- The linear four-stage state machine inside the `try` block of
`process_customer_request`: a thrown participant error aborts the whole
run; a DECLINE verdict skips the fulfillment participant and synthesizes
the declined stand-in response text. -/
def run_workflow (P : Participants) (customer_request request_date : String) :
    Except String RunTrace :=
  match P.inventory customer_request with
  | Except.error e => Except.error e
  | Except.ok inventory_response =>
    match P.quote (quote_context customer_request inventory_response) with
    | Except.error e => Except.error e
    | Except.ok quote_response =>
      match P.customer (customer_context quote_response) with
      | Except.error e => Except.error e
      | Except.ok customer_response =>
        let cd := parse_customer_decision customer_response
        if (strUpper cd.decision) == ("APPROVE") then
          match P.fulfillment
              (fulfillment_context customer_request request_date inventory_response quote_response) with
          | Except.error e => Except.error e
          | Except.ok fulfillment_response =>
            Except.ok (finish_trace inventory_response quote_response customer_response
              fulfillment_response)
        else
          Except.ok (finish_trace inventory_response quote_response customer_response
            (("Customer declined: ") ++ cd.reason))

/-- Observation helper: the run's trace, when the run did not abort. -/
def workflow_trace (P : Participants) (customer_request request_date : String) :
    Option RunTrace :=
  (run_workflow P customer_request request_date).toOption

/-- Model of `OrchestratorAgent.process_customer_request`: the returned triple
`(final_response, fulfilled, fulfillment_details)`; `now` stands for
`datetime.now()`, used only when the request date is empty. -/
def process_customer_request (P : Participants) (customer_request request_date now : String) :
    String × Bool × String :=
  let date := if request_date = "" then now else request_date
  match run_workflow P customer_request date with
  | Except.ok t => (t.final_response, t.fulfilled, t.fulfillment_details)
  | Except.error e => (("ERROR in order processing: ") ++ e, false, e)

/-! ## Quote generation (`src/tools/quote_tools.py`, `generate_quote_tool`) -/

/-- The bulk-discount branch of `generate_quote_tool` (lines 60-67):
`0.15` above 1000 units, `0.10` above 500, `0.05` above 100, else `0.0`. -/
def bulk_discount (qty : Int) : PyNum :=
  if qty > 1000 then ⟨15, 100⟩
  else if qty > 500 then ⟨10, 100⟩
  else if qty > 100 then ⟨5, 100⟩
  else ⟨0, 10⟩

/-- The rendered discount field `f-string (discount * 100, .0f) %`; exact
for the four tier values. -/
def discount_render (d : PyNum) : String :=
  toString ((d.num * 100) / (d.den : Int)) ++ ("%")

structure QuoteItem where
  item : String
  quantity : Int
  unit_price : PyNum
  discount : String
  item_total : PyNum
  deriving Repr

structure QuoteResult where
  quote_items : List QuoteItem
  total_amount : PyNum
  quote_date : String
  deriving Repr

/-- One iteration of the quote loop: skip items missing from inventory,
otherwise apply the bulk discount and accumulate the line total. -/
def quote_step (inventory : List (String × PyNum)) (acc : List QuoteItem × PyNum)
    (p : String × Int) : List QuoteItem × PyNum :=
  match inventory.find? (fun row => row.1 == p.1) with
  | none => acc
  | some row =>
    let unit_price := row.2
    let d := bulk_discount p.2
    let discounted := unit_price.mul (PyNum.ofInt 1 |>.sub d)
    let item_total := discounted.mul (PyNum.ofInt p.2)
    (acc.1 ++ [⟨p.1, p.2, unit_price, discount_render d, item_total⟩],
      acc.2.add item_total)

/-- Model of `generate_quote_tool`: the item/quantity lists are taken already split
(the source splits comma-separated strings); `inventory` is the inventory
table keyed by item name with unit prices; `now` is the quote timestamp. -/
def generate_quote_tool (inventory : List (String × PyNum)) (item_list : List String)
    (qty_list : List Int) (now : String) : QuoteResult :=
  let folded := (item_list.zip qty_list).foldl (quote_step inventory) ([], ⟨0, 10⟩)
  ⟨folded.1, folded.2, now⟩

/-! ## Fulfillment (`src/tools/fulfillment_tools.py` and
`database_setup.create_transaction`) -/

/-- A row of the `transactions` table. -/
structure TxRow where
  item_name : String
  transaction_type : String
  units : Int
  price : PyNum
  transaction_date : String
  deriving Repr, DecidableEq

/-- Modelled from the spec: `get_stock_level` lives in the repository's
`tools/utils` module, which is not among the provided sources.  Per §6 the
store "supports point lookup of current stock by item and as-of date" over
the append-only transactions table, with `stock_orders` entries adding and
`sales` entries subtracting units, restricted to transactions dated no
later than the as-of date (ISO date strings compare lexicographically). -/
def get_stock_level (item_name as_of_date : String) (txs : List TxRow) : Int :=
  (txs.filter (fun t => t.item_name == item_name && strLe t.transaction_date as_of_date)).foldl
    (fun s t =>
      if t.transaction_type == ("stock_orders") then s + t.units
      else if t.transaction_type == ("sales") then s - t.units
      else s) 0

/-- Model of `database_setup.create_transaction`: validates the transaction type,
appends the row, and returns the new row id (`last_insert_rowid()`, the
count of rows after the append). -/
def create_transaction (item_name transaction_type : String) (quantity : Int) (price : PyNum)
    (date : String) (txs : List TxRow) : Except String (Int × List TxRow) :=
  if transaction_type = ("stock_orders") ∨ transaction_type = ("sales") then
    let txs' := txs ++ [⟨item_name, transaction_type, quantity, price, date⟩]
    Except.ok ((txs'.length : Int), txs')
  else Except.error ("Transaction type must be one of stock_orders or sales")

/-- Result dictionary of `create_order_fulfillment_tool`; the success and
error dictionaries share `status`, `message`, `transaction_id`. -/
structure FulfillResult where
  status : String
  message : String
  transaction_id : String
  item_name : Option String
  quantity : Option Int
  total_price : Option String
  deriving Repr, DecidableEq

/-- Model of `create_order_fulfillment_tool`: check stock as of the transaction
date, reject with an error status (leaving the store untouched) when the
available stock is below the requested quantity, otherwise record a sales
transaction and report success with the new transaction id. -/
def create_order_fulfillment_tool (item_name : String) (quantity : Int) (price_per_unit : PyNum)
    (transaction_date : String) (txs : List TxRow) : FulfillResult × List TxRow :=
  let total_price := (PyNum.ofInt quantity).mul price_per_unit
  let current_stock := get_stock_level item_name transaction_date txs
  if current_stock < quantity then
    (⟨("error"),
      ("Insufficient stock. Available: ") ++ toString current_stock
        ++ (", Requested: ") ++ toString quantity,
      ("N/A"), none, none, none⟩, txs)
  else
    match create_transaction item_name ("sales") quantity total_price transaction_date txs with
    | Except.ok (transaction_id, txs') =>
      (⟨("success"),
        ("Order fulfillment completed. Transaction ID: ") ++ toString transaction_id,
        toString transaction_id, some item_name, some quantity, some total_price.render⟩, txs')
    | Except.error e =>
      (⟨("error"), ("Fulfillment failed: ") ++ e, ("N/A"), none, none, none⟩, txs)

/-! ## The brace-span characterization

`brace_span cs` is nonempty exactly when the text has a left brace with a
right brace somewhere after it — the condition under which the Python
regex search for a dotall brace span succeeds. -/

lemma brace_span_ne_nil_iff_mem (cs : List Char) :
    brace_span cs ≠ [] ↔ rbrace ∈ cs.dropWhile (fun c => c != lbrace) := by
  unfold brace_span
  constructor
  · intro h
    have h' : (cs.dropWhile (fun c => c != lbrace)).reverse.dropWhile (fun c => c != rbrace) ≠ [] := by
      intro hnil
      apply h
      rw [hnil]
      rfl
    rw [Ne, List.dropWhile_eq_nil_iff] at h'
    push_neg at h'
    obtain ⟨a, ha, hne⟩ := h'
    have : a = rbrace := by
      simpa using hne
    rw [← this]
    exact (List.mem_reverse).mp ha
  · intro hmem h
    have h0 : (cs.dropWhile (fun c => c != lbrace)).reverse.dropWhile (fun c => c != rbrace) = [] := by
      have := congrArg List.reverse h
      simpa using this
    rw [List.dropWhile_eq_nil_iff] at h0
    have := h0 rbrace ((List.mem_reverse).mpr hmem)
    simp at this

lemma brace_span_ne_nil_iff (cs : List Char) :
    brace_span cs ≠ [] ↔ ∃ l m r, cs = l ++ lbrace :: (m ++ rbrace :: r) := by
  rw [brace_span_ne_nil_iff_mem]
  constructor
  · intro hmem
    have hne : cs.dropWhile (fun c => c != lbrace) ≠ [] := by
      intro hnil
      rw [hnil] at hmem
      simp at hmem
    have hhead := List.head_dropWhile_not (fun c => c != lbrace) cs hne
    have hheadeq : (cs.dropWhile (fun c => c != lbrace)).head hne = lbrace := by
      simpa using hhead
    obtain ⟨t, ht⟩ : ∃ t, cs.dropWhile (fun c => c != lbrace) = lbrace :: t := by
      rcases hd : cs.dropWhile (fun c => c != lbrace) with _ | ⟨c, t⟩
      · exact absurd hd hne
      · refine ⟨t, ?_⟩
        have : c = lbrace := by
          rw [← hheadeq]
          simp [hd]
        rw [this]
    have htail : rbrace ∈ t := by
      rw [ht] at hmem
      rcases List.mem_cons.mp hmem with h1 | h1
      · exact absurd h1 (by decide)
      · exact h1
    obtain ⟨m, r, hmr⟩ := List.append_of_mem htail
    refine ⟨cs.takeWhile (fun c => c != lbrace), m, r, ?_⟩
    conv_lhs => rw [← List.takeWhile_append_dropWhile (p := fun c => c != lbrace) (l := cs)]
    rw [ht, hmr]
  · rintro ⟨l, m, r, rfl⟩
    induction l with
    | nil =>
      rw [List.nil_append, List.dropWhile_cons]
      simp
    | cons a l ih =>
      rw [List.cons_append, List.dropWhile_cons]
      by_cases ha : a = lbrace
      · subst ha
        simp
      · have : (a != lbrace) = true := by
          simpa using ha
        rw [this]
        simpa using ih

lemma extract_eq_nil_of_no_span (s : String)
    (h : ¬ ∃ l m r, s.toList = l ++ lbrace :: (m ++ rbrace :: r)) :
    extract_json_from_response s = [] := by
  have hspan : brace_span s.toList = [] := by
    by_contra hne
    exact h ((brace_span_ne_nil_iff s.toList).mp hne)
  unfold extract_json_from_response
  rw [hspan]
  rfl

/-! ## Claims -/

/-- C1: for every parsed decision record and every parsed fulfillment
receipt (whose fields carry the data model's enum values), the
reconciliation computed by `process_customer_request` satisfies the literal
boolean: status `success` forces `fulfilled = true` regardless of the
verdict; otherwise `fulfilled = (verdict == APPROVE) && (status !=
pending)`; in particular `error` with `APPROVE` yields `true` and
`pending` with `APPROVE` yields `false`. -/
theorem thm_C1_reconciliation (decision reason status transaction_id delivery_date : String) :
    ((decision = ("APPROVE") ∨ decision = ("DECLINE")) →
      (status = ("success") ∨ status = ("error") ∨ status = ("pending")) →
      (reconcile ⟨decision, reason⟩ ⟨status, transaction_id, delivery_date⟩).1 =
        ((status == ("success")) || ((decision == ("APPROVE")) && (status != ("pending"))))) ∧
    (reconcile ⟨("APPROVE"), reason⟩ ⟨("error"), transaction_id, delivery_date⟩).1 = true ∧
    (reconcile ⟨("APPROVE"), reason⟩ ⟨("pending"), transaction_id, delivery_date⟩).1 = false ∧
    (reconcile ⟨decision, reason⟩ ⟨("success"), transaction_id, delivery_date⟩).1 = true ∧
    (∀ ir qr cr fr, (finish_trace ir qr cr fr).fulfilled =
      (reconcile (parse_customer_decision cr) (parse_fulfillment_response fr)).1) := by
  refine ⟨?_, rfl, rfl, rfl, fun ir qr cr fr => rfl⟩
  rintro (rfl | rfl) (rfl | rfl | rfl) <;> rfl

/-- Witness for C1 at concrete records. -/
theorem wit_C1_reconciliation :
    (reconcile ⟨("DECLINE"), ("no")⟩ ⟨("error"), ("N/A"), ("TBD")⟩).1 =
      (((("error")) == ("success")) || (((("DECLINE")) == ("APPROVE")) && ((("error")) != ("pending")))) :=
  (thm_C1_reconciliation ("DECLINE") ("no") ("error") ("N/A") ("TBD")).1
    (Or.inr rfl) (Or.inr (Or.inl rfl))

/-- C7: the structured extractor is a total function with no side effects;
when the text has no first-left-brace-to-later-right-brace span, or when
decoding the span fails, it returns the empty mapping instead of
propagating an error. -/
theorem thm_C7_extractor_total (s : String) :
    ((¬ ∃ l m r, s.toList = l ++ lbrace :: (m ++ rbrace :: r)) →
      extract_json_from_response s = []) ∧
    (json_loads (String.mk (brace_span s.toList)) = none →
      extract_json_from_response s = []) := by
  constructor
  · exact extract_eq_nil_of_no_span s
  · intro h
    unfold extract_json_from_response
    by_cases he : (brace_span s.toList).isEmpty
    · simp only [String.toList] at he
      simp [he]
    · simp only [String.toList] at he h
      simp [he, h]

/-- Witness for C7: a span-free text and an undecodable span. -/
theorem wit_C7_extractor_total :
    extract_json_from_response ("no braces at all") = [] ∧
    extract_json_from_response ("\x7bnot json\x7d") = [] := by
  constructor
  · exact (thm_C7_extractor_total ("no braces at all")).1
      (fun hex => (brace_span_ne_nil_iff _).mpr hex (by decide))
  · exact (thm_C7_extractor_total ("\x7bnot json\x7d")).2 rfl

/-- C4 (amended): for input text with no balanced-brace span, the
StockStatus, PriceQuote and Fulfillment parsers return exactly their
documented defaults; the Decision parser does so provided the text also
matches neither tier-2 literal `DECISION: APPROVE` / `DECISION: DECLINE`
(case-insensitively) — the original claim omitted that proviso. -/
theorem thm_C4_no_span_defaults (s : String)
    (h : ¬ ∃ l m r, s.toList = l ++ lbrace :: (m ++ rbrace :: r)) :
    parse_inventory_response s = default_inventory ∧
    parse_quote_response s = default_quote ∧
    parse_fulfillment_response s = default_fulfillment ∧
    (containsSubstr (strUpper s) ("DECISION: APPROVE") = false →
      containsSubstr (strUpper s) ("DECISION: DECLINE") = false →
      parse_customer_decision s = default_decision) := by
  have hext := extract_eq_nil_of_no_span s h
  refine ⟨?_, ?_, ?_, ?_⟩
  · simp [parse_inventory_response, hext]
  · simp [parse_quote_response, hext]
  · simp [parse_fulfillment_response, hext]
  · intro h1 h2
    simp [parse_customer_decision, hext, decision_tier2, h1, h2]

/-- Witness for C4 on the empty string and on unmatched braces. -/
theorem wit_C4_no_span_defaults :
    (parse_inventory_response ("") = default_inventory ∧
      parse_quote_response ("") = default_quote ∧
      parse_fulfillment_response ("") = default_fulfillment ∧
      parse_customer_decision ("") = default_decision) ∧
    (parse_inventory_response ("\x7d open \x7b") = default_inventory ∧
      parse_customer_decision ("\x7d open \x7b") = default_decision) := by
  have h1 := thm_C4_no_span_defaults ("")
    (fun hex => (brace_span_ne_nil_iff _).mpr hex (by decide))
  have h2 := thm_C4_no_span_defaults ("\x7d open \x7b")
    (fun hex => (brace_span_ne_nil_iff _).mpr hex (by decide))
  exact ⟨⟨h1.1, h1.2.1, h1.2.2.1, h1.2.2.2 (by decide) (by decide)⟩,
    ⟨h2.1, h2.2.2.2 (by decide) (by decide)⟩⟩

/-- Counterexample to C4 as stated: `DECISION: APPROVE` contains no
balanced-brace span, yet the Decision parser returns the tier-2 record,
not its documented default. -/
theorem cex_C4_decision_not_default :
    (¬ ∃ l m r, ("DECISION: APPROVE").toList = l ++ lbrace :: (m ++ rbrace :: r)) ∧
    parse_customer_decision ("DECISION: APPROVE") = ⟨("APPROVE"), ("Approved")⟩ ∧
    parse_customer_decision ("DECISION: APPROVE") ≠ default_decision := by
  refine ⟨fun hex => (brace_span_ne_nil_iff _).mpr hex (by decide), rfl, by decide⟩

lemma objLookup_nil (k : String) : objLookup [] k = none := rfl

lemma isEmpty_false_of_lookup (d : List (String × Json)) (k : String) (v : Json)
    (h : objLookup d k = some v) : d.isEmpty = false := by
  cases d with
  | nil => rw [objLookup_nil] at h; cases h
  | cons p d' => rfl

/-- C3: whenever the response text decodes to a mapping with a `decision`
key from which a `CustomerDecision` can be constructed, the Decision
parser returns that record — even when the same text also matches the
tier-2 literal `DECISION: APPROVE` / `DECISION: DECLINE` form; tier 1 takes
precedence, in particular the structured `reason` wins over the
line-following heuristic. -/
theorem thm_C3_tier_precedence (s : String) (d : List (String × Json)) (v : Json)
    (cd : CustomerDecision)
    (h1 : extract_json_from_response s = d)
    (h2 : objLookup d ("decision") = some v)
    (h3 : tryMkCustomerDecision d = some cd)
    (_h4 : containsSubstr (strUpper s) ("DECISION: APPROVE") = true ∨
      containsSubstr (strUpper s) ("DECISION: DECLINE") = true) :
    parse_customer_decision s = cd := by
  have hne := isEmpty_false_of_lookup _ _ _ h2
  simp [parse_customer_decision, h1, hne, h2, h3]

/-- Witness for C3: text carrying both a constructible structured payload
and a `DECISION: APPROVE` literal; the structured verdict and reason win. -/
theorem wit_C3_tier_precedence :
    parse_customer_decision
        ("DECISION: APPROVE\n\x7b\"decision\": \"DECLINE\", \"reason\": \"structured reason\"\x7d") =
      ⟨("DECLINE"), ("structured reason")⟩ :=
  thm_C3_tier_precedence
    ("DECISION: APPROVE\n\x7b\"decision\": \"DECLINE\", \"reason\": \"structured reason\"\x7d")
    [(("decision"), Json.str ("DECLINE")), (("reason"), Json.str ("structured reason"))]
    (Json.str ("DECLINE")) ⟨("DECLINE"), ("structured reason")⟩
    rfl rfl rfl (Or.inl rfl)

/-- C10: when the decoded mapping has a `decision` key but the
`CustomerDecision` constructor fails (e.g. `reason` missing), the Decision
parser returns its documented default directly — the tier-2 literal
fallback is not attempted. -/
theorem thm_C10_construct_failure (s : String) (d : List (String × Json)) (v : Json)
    (h1 : extract_json_from_response s = d)
    (h2 : objLookup d ("decision") = some v)
    (h3 : tryMkCustomerDecision d = none) :
    parse_customer_decision s = default_decision := by
  have hne := isEmpty_false_of_lookup _ _ _ h2
  simp [parse_customer_decision, h1, hne, h2, h3]

/-- Witness for C10: the payload has `decision` but no `reason`, while the
text also contains a `DECISION: APPROVE` literal line that tier 2 would
have accepted — yet the parser yields the default. -/
theorem wit_C10_construct_failure :
    parse_customer_decision ("DECISION: APPROVE\n\x7b\"decision\": \"APPROVE\"\x7d") =
        default_decision ∧
      decision_tier2 ("DECISION: APPROVE\n\x7b\"decision\": \"APPROVE\"\x7d") ≠ default_decision :=
  ⟨thm_C10_construct_failure ("DECISION: APPROVE\n\x7b\"decision\": \"APPROVE\"\x7d")
      [(("decision"), Json.str ("APPROVE"))] (Json.str ("APPROVE")) rfl rfl rfl,
    by decide⟩

/-- C5 (amended): the StockStatus parser validates that the required keys
`items`, `low_stock` and `reorder_required` are all present (and well
typed); a mapping missing any of them fails validation and the parser
returns the full default record — no per-field coercion of a missing
`items` or `low_stock` occurs.  When construction succeeds the parser
returns exactly the constructed record. -/
theorem thm_C5_required_keys (s : String) (d : List (String × Json))
    (h1 : extract_json_from_response s = d) :
    ((objLookup d ("items") = none ∨ objLookup d ("low_stock") = none ∨
        objLookup d ("reorder_required") = none) →
      parse_inventory_response s = default_inventory) ∧
    (∀ inv, tryMkInventoryStatus d = some inv → parse_inventory_response s = inv) := by
  constructor
  · intro h
    have htry : tryMkInventoryStatus d = none := by
      unfold tryMkInventoryStatus
      rcases e1 : objLookup d ("items") with _ | j1 <;>
        rcases e2 : objLookup d ("low_stock") with _ | j2 <;>
          rcases e3 : objLookup d ("reorder_required") with _ | j3 <;>
            simp_all
    by_cases hd : d.isEmpty
    · simp [parse_inventory_response, h1, hd]
    · simp [parse_inventory_response, h1, hd, htry]
  · intro inv htry
    have hd : d.isEmpty = false := by
      cases d with
      | nil =>
        rw [show tryMkInventoryStatus [] = none from rfl] at htry
        cases htry
      | cons p d' => rfl
    simp [parse_inventory_response, h1, hd, htry]

/-- Witness for C5 (amended): a mapping missing `reorder_required`
collapses to the default; a fully valid mapping is honored. -/
theorem wit_C5_required_keys :
    parse_inventory_response ("\x7b\"items\": \x7b\"A4\": 500\x7d, \"low_stock\": []\x7d") =
        default_inventory ∧
      parse_inventory_response
          ("\x7b\"items\": \x7b\"A4\": 500\x7d, \"low_stock\": [], \"reorder_required\": false\x7d") =
        ⟨[(("A4"), 500)], [], false, none⟩ :=
  ⟨(thm_C5_required_keys ("\x7b\"items\": \x7b\"A4\": 500\x7d, \"low_stock\": []\x7d")
      [(("items"), Json.obj [(("A4"), Json.num ⟨500, 1⟩)]), (("low_stock"), Json.arr [])]
      rfl).1 (Or.inr (Or.inr rfl)),
    (thm_C5_required_keys
      ("\x7b\"items\": \x7b\"A4\": 500\x7d, \"low_stock\": [], \"reorder_required\": false\x7d")
      [(("items"), Json.obj [(("A4"), Json.num ⟨500, 1⟩)]), (("low_stock"), Json.arr []),
        (("reorder_required"), Json.bool false)]
      rfl).2 ⟨[(("A4"), 500)], [], false, none⟩ rfl⟩

/-- Counterexample to C5 as stated: the extracted mapping supplies
`low_stock = [A4]` and `reorder_required = true` but no `items`; the
claimed coercion (`items` → empty mapping, keeping the other parsed
fields) would preserve them, yet the parser collapses everything to the
full default, whose `low_stock` is empty and `reorder_required` false. -/
theorem cex_C5_no_items_coercion :
    objLookup (extract_json_from_response
        ("\x7b\"low_stock\": [\"A4\"], \"reorder_required\": true\x7d")) ("low_stock") =
      some (Json.arr [Json.str ("A4")]) ∧
    objLookup (extract_json_from_response
        ("\x7b\"low_stock\": [\"A4\"], \"reorder_required\": true\x7d")) ("reorder_required") =
      some (Json.bool true) ∧
    objLookup (extract_json_from_response
        ("\x7b\"low_stock\": [\"A4\"], \"reorder_required\": true\x7d")) ("items") = none ∧
    parse_inventory_response ("\x7b\"low_stock\": [\"A4\"], \"reorder_required\": true\x7d") =
      default_inventory ∧
    default_inventory.low_stock = [] ∧
    default_inventory.reorder_required = false :=
  ⟨rfl, rfl, rfl, rfl, rfl, rfl⟩

/-- C2 (amended): when the parsed customer decision is DECLINE, the
fulfillment participant is never invoked (the run does not depend on it),
and the coordinator synthesizes the text Customer declined: reason and parses
it; the resulting receipt equals the `pending` default provided that the
synthesized text contains no balanced-brace span (the original claim
omitted that proviso, which fails when the decline reason itself embeds a
decodable payload). -/
theorem thm_C2_decline_skip (P : Participants) (req date ir qr cr : String)
    (h1 : P.inventory req = Except.ok ir)
    (h2 : P.quote (quote_context req ir) = Except.ok qr)
    (h3 : P.customer (customer_context qr) = Except.ok cr)
    (h4 : (parse_customer_decision cr).decision = ("DECLINE")) :
    (∀ f, run_workflow ⟨P.inventory, P.quote, P.customer, f⟩ req date =
      run_workflow P req date) ∧
    workflow_trace P req date =
      some (finish_trace ir qr cr
        (("Customer declined: ") ++ (parse_customer_decision cr).reason)) ∧
    (workflow_trace P req date).map (fun t => t.fulfillment_response) =
      some (("Customer declined: ") ++ (parse_customer_decision cr).reason) ∧
    ((¬ ∃ l m r, (("Customer declined: ") ++ (parse_customer_decision cr).reason).toList =
        l ++ lbrace :: (m ++ rbrace :: r)) →
      (workflow_trace P req date).map (fun t => t.fulfillment_data) =
        some default_fulfillment) := by
  have hbranch : ((strUpper (parse_customer_decision cr).decision) == ("APPROVE")) = false := by
    rw [h4]; rfl
  refine ⟨?_, ?_, ?_, ?_⟩
  · intro f
    simp [run_workflow, h1, h2, h3, hbranch]
  · simp [workflow_trace, run_workflow, h1, h2, h3, hbranch, Except.toOption]
  · simp [workflow_trace, run_workflow, h1, h2, h3, hbranch, finish_trace, Except.toOption]
  · intro hns
    have hdef : parse_fulfillment_response
        (("Customer declined: ") ++ (parse_customer_decision cr).reason) =
        default_fulfillment := by
      have hext := extract_eq_nil_of_no_span _ hns
      simp [parse_fulfillment_response, hext]
    simp [workflow_trace, run_workflow, h1, h2, h3, hbranch, finish_trace, hdef, Except.toOption]

/-- Witness for C2 on an ordinary declined run. -/
theorem wit_C2_decline_skip :
    (workflow_trace
        ⟨fun _ => Except.ok (""), fun _ => Except.ok (""),
          fun _ => Except.ok ("DECISION: DECLINE\ntoo expensive"),
          fun _ => Except.ok ("")⟩
        ("Need 50 reams of A4") ("2025-01-01")).map (fun t => t.fulfillment_data) =
      some default_fulfillment :=
  (thm_C2_decline_skip
      ⟨fun _ => Except.ok (""), fun _ => Except.ok (""),
        fun _ => Except.ok ("DECISION: DECLINE\ntoo expensive"),
        fun _ => Except.ok ("")⟩
      ("Need 50 reams of A4") ("2025-01-01") ("") ("")
      ("DECISION: DECLINE\ntoo expensive") rfl rfl rfl rfl).2.2.2
    (fun hex => (brace_span_ne_nil_iff _).mpr hex (by decide))

set_option maxRecDepth 4000 in
/-- Counterexample to C2 as stated: a structured DECLINE whose reason
itself embeds a JSON receipt; the synthesized `Customer declined: ...`
text then parses to a `success` receipt, not the `pending` default (and
the run even reconciles to `fulfilled = true`). -/
theorem cex_C2_receipt_not_default :
    (workflow_trace
        ⟨fun _ => Except.ok (""), fun _ => Except.ok (""),
          fun _ => Except.ok ("\x7b\"decision\": \"DECLINE\", \"reason\": \"\x7b\\\"status\\\": \\\"success\\\", \\\"transaction_id\\\": \\\"99\\\", \\\"delivery_date\\\": \\\"2025-01-05\\\"\x7d\"\x7d"),
          fun _ => Except.ok ("")⟩
        ("Need 50 reams of A4") ("2025-01-01")).map
      (fun t => (t.customer_decision.decision, t.fulfillment_data, t.fulfilled)) =
      some ((("DECLINE"), ⟨("success"), ("99"), ("2025-01-05")⟩, true)) ∧
    (⟨("success"), ("99"), ("2025-01-05")⟩ : FulfillmentReceipt) ≠ default_fulfillment := by
  exact ⟨rfl, by decide⟩

/-- C6: a thrown error from any external participant aborts the request
immediately — no later participant is consulted — and the coordinator
returns the formatted error string (which contains the raw error text as a
suffix), `fulfilled = false`, and the raw error text as detail. -/
theorem thm_C6_abort (P : Participants) (req date date0 now e ir qr cr : String) :
    (P.inventory req = Except.error e →
      ∀ g c f, run_workflow ⟨P.inventory, g, c, f⟩ req date = Except.error e) ∧
    (P.inventory req = Except.ok ir →
      P.quote (quote_context req ir) = Except.error e →
      ∀ c f, run_workflow ⟨P.inventory, P.quote, c, f⟩ req date = Except.error e) ∧
    (P.inventory req = Except.ok ir →
      P.quote (quote_context req ir) = Except.ok qr →
      P.customer (customer_context qr) = Except.error e →
      ∀ f, run_workflow ⟨P.inventory, P.quote, P.customer, f⟩ req date = Except.error e) ∧
    (P.inventory req = Except.ok ir →
      P.quote (quote_context req ir) = Except.ok qr →
      P.customer (customer_context qr) = Except.ok cr →
      ((strUpper (parse_customer_decision cr).decision) == ("APPROVE")) = true →
      P.fulfillment (fulfillment_context req date ir qr) = Except.error e →
      run_workflow P req date = Except.error e) ∧
    (run_workflow P req (if date0 = "" then now else date0) = Except.error e →
      process_customer_request P req date0 now =
        ((("ERROR in order processing: ") ++ e), false, e) ∧
      ∃ pre, (("ERROR in order processing: ") ++ e) = pre ++ e) := by
  refine ⟨?_, ?_, ?_, ?_, ?_⟩
  · intro h g c f
    simp [run_workflow, h]
  · intro h1 h2 c f
    simp [run_workflow, h1, h2]
  · intro h1 h2 h3 f
    simp [run_workflow, h1, h2, h3]
  · intro h1 h2 h3 h4 h5
    simp [run_workflow, h1, h2, h3, h4, h5]
  · intro h
    exact ⟨by simp [process_customer_request, h], ("ERROR in order processing: "), rfl⟩

/-- Witness for C6: a raising inventory participant aborts the whole run
with the formatted error triple. -/
theorem wit_C6_abort :
    process_customer_request
        ⟨fun _ => Except.error ("boom"), fun _ => Except.ok (""),
          fun _ => Except.ok (""), fun _ => Except.ok ("")⟩
        ("Need 50 reams of A4") ("2025-01-01") ("2025-06-06") =
      ((("ERROR in order processing: ") ++ ("boom")), false, ("boom")) :=
  ((thm_C6_abort
      ⟨fun _ => Except.error ("boom"), fun _ => Except.ok (""),
        fun _ => Except.ok (""), fun _ => Except.ok ("")⟩
      ("Need 50 reams of A4") ("2025-01-01") ("2025-01-01") ("2025-06-06") ("boom")
      ("") ("") ("")).2.2.2.2
    ((thm_C6_abort
        ⟨fun _ => Except.error ("boom"), fun _ => Except.ok (""),
          fun _ => Except.ok (""), fun _ => Except.ok ("")⟩
        ("Need 50 reams of A4") ("2025-01-01") ("2025-01-01") ("2025-06-06") ("boom")
        ("") ("") ("")).1 rfl
      (fun _ => Except.ok ("")) (fun _ => Except.ok ("")) (fun _ => Except.ok ("")))).1

/-- Every quote line emitted by the quote loop carries the rendered bulk
discount for its quantity. -/
lemma quote_items_discount (inventory : List (String × PyNum))
    (pairs : List (String × Int)) (acc : List QuoteItem × PyNum)
    (hacc : ∀ qi ∈ acc.1, qi.discount = discount_render (bulk_discount qi.quantity)) :
    ∀ qi ∈ (pairs.foldl (quote_step inventory) acc).1,
      qi.discount = discount_render (bulk_discount qi.quantity) := by
  induction pairs generalizing acc with
  | nil => simpa using hacc
  | cons p ps ih =>
    intro qi hqi
    rw [List.foldl_cons] at hqi
    refine ih (quote_step inventory acc p) ?_ qi hqi
    intro qj hqj
    unfold quote_step at hqj
    rcases hfind : inventory.find? (fun row => row.1 == p.1) with _ | row
    · rw [hfind] at hqj
      exact hacc qj hqj
    · rw [hfind] at hqj
      simp only [List.mem_append, List.mem_singleton] at hqj
      rcases hqj with hq | hq
      · exact hacc qj hq
      · subst hq
        rfl

/-- C8: the discount applied by the quote generator to a line item with
quantity `q` is exactly 0% for `q ≤ 100`, 5% for `100 < q ≤ 500`, 10% for
`500 < q ≤ 1000` and 15% for `q > 1000`; the six boundary instances of the
claim are listed, and every line item of `generate_quote_tool` carries the
rendering of that discount. -/
theorem thm_C8_discount_tiers (q : Int) :
    ((q ≤ 100 → bulk_discount q = ⟨0, 10⟩ ∧ discount_render (bulk_discount q) = ("0%")) ∧
     (100 < q → q ≤ 500 →
       bulk_discount q = ⟨5, 100⟩ ∧ discount_render (bulk_discount q) = ("5%")) ∧
     (500 < q → q ≤ 1000 →
       bulk_discount q = ⟨10, 100⟩ ∧ discount_render (bulk_discount q) = ("10%")) ∧
     (1000 < q → bulk_discount q = ⟨15, 100⟩ ∧ discount_render (bulk_discount q) = ("15%"))) ∧
    (discount_render (bulk_discount 100) = ("0%") ∧
     discount_render (bulk_discount 101) = ("5%") ∧
     discount_render (bulk_discount 500) = ("5%") ∧
     discount_render (bulk_discount 501) = ("10%") ∧
     discount_render (bulk_discount 1000) = ("10%") ∧
     discount_render (bulk_discount 1001) = ("15%")) ∧
    (∀ inventory item_list qty_list now qi,
      qi ∈ (generate_quote_tool inventory item_list qty_list now).quote_items →
      qi.discount = discount_render (bulk_discount qi.quantity)) := by
  refine ⟨⟨?_, ?_, ?_, ?_⟩, ⟨rfl, rfl, rfl, rfl, rfl, rfl⟩, ?_⟩
  · intro h
    unfold bulk_discount
    rw [if_neg (by omega), if_neg (by omega), if_neg (by omega)]
    exact ⟨rfl, rfl⟩
  · intro h1 h2
    unfold bulk_discount
    rw [if_neg (by omega), if_neg (by omega), if_pos (by omega)]
    exact ⟨rfl, rfl⟩
  · intro h1 h2
    unfold bulk_discount
    rw [if_neg (by omega), if_pos (by omega)]
    exact ⟨rfl, rfl⟩
  · intro h
    unfold bulk_discount
    rw [if_pos (by omega)]
    exact ⟨rfl, rfl⟩
  · intro inventory item_list qty_list now qi hqi
    exact quote_items_discount inventory (item_list.zip qty_list) ([], ⟨0, 10⟩)
      (by intro qj hqj; cases hqj) qi hqi

/-- Witness for C8 at the claim's boundary quantities. -/
theorem wit_C8_discount_tiers :
    bulk_discount 100 = ⟨0, 10⟩ ∧ bulk_discount 101 = ⟨5, 100⟩ ∧
    bulk_discount 500 = ⟨5, 100⟩ ∧ bulk_discount 501 = ⟨10, 100⟩ ∧
    bulk_discount 1000 = ⟨10, 100⟩ ∧ bulk_discount 1001 = ⟨15, 100⟩ :=
  ⟨((thm_C8_discount_tiers 100).1.1 (by omega)).1,
   ((thm_C8_discount_tiers 101).1.2.1 (by omega) (by omega)).1,
   ((thm_C8_discount_tiers 500).1.2.1 (by omega) (by omega)).1,
   ((thm_C8_discount_tiers 501).1.2.2.1 (by omega) (by omega)).1,
   ((thm_C8_discount_tiers 1000).1.2.2.1 (by omega) (by omega)).1,
   ((thm_C8_discount_tiers 1001).1.2.2.2 (by omega)).1⟩

/-- C9: fulfillment with insufficient stock (current stock strictly below
the requested quantity) reports status `error` with transaction id `N/A`
and leaves the transactions store unchanged; with sufficient stock it
appends exactly one `sales` transaction and reports `success` carrying the
new transaction's id. -/
theorem thm_C9_fulfillment_stock (item date : String) (qty : Int) (price : PyNum)
    (txs : List TxRow) :
    (get_stock_level item date txs < qty →
      (create_order_fulfillment_tool item qty price date txs).1.status = ("error") ∧
      (create_order_fulfillment_tool item qty price date txs).1.transaction_id = ("N/A") ∧
      (create_order_fulfillment_tool item qty price date txs).2 = txs) ∧
    (qty ≤ get_stock_level item date txs →
      (create_order_fulfillment_tool item qty price date txs).1.status = ("success") ∧
      (create_order_fulfillment_tool item qty price date txs).2 =
        txs ++ [⟨item, ("sales"), qty, (PyNum.ofInt qty).mul price, date⟩] ∧
      (create_order_fulfillment_tool item qty price date txs).1.transaction_id =
        toString ((txs.length : Int) + 1)) := by
  constructor
  · intro h
    unfold create_order_fulfillment_tool
    rw [if_pos h]
    exact ⟨rfl, rfl, rfl⟩
  · intro h
    unfold create_order_fulfillment_tool
    rw [if_neg (not_lt.mpr h)]
    unfold create_transaction
    rw [if_pos (Or.inr rfl)]
    refine ⟨rfl, rfl, ?_⟩
    simp

/-- Witness for C9: a store holding 500 units of A4; requesting 600 fails
without recording, requesting 50 records one sale with id 2. -/
theorem wit_C9_fulfillment_stock :
    ((create_order_fulfillment_tool ("A4") 600 ⟨5, 1⟩ ("2025-01-02")
        [⟨("A4"), ("stock_orders"), 500, ⟨1, 1⟩, ("2025-01-01")⟩]).1.status = ("error") ∧
      (create_order_fulfillment_tool ("A4") 600 ⟨5, 1⟩ ("2025-01-02")
        [⟨("A4"), ("stock_orders"), 500, ⟨1, 1⟩, ("2025-01-01")⟩]).2 =
        [⟨("A4"), ("stock_orders"), 500, ⟨1, 1⟩, ("2025-01-01")⟩]) ∧
    ((create_order_fulfillment_tool ("A4") 50 ⟨5, 1⟩ ("2025-01-02")
        [⟨("A4"), ("stock_orders"), 500, ⟨1, 1⟩, ("2025-01-01")⟩]).1.status = ("success") ∧
      (create_order_fulfillment_tool ("A4") 50 ⟨5, 1⟩ ("2025-01-02")
        [⟨("A4"), ("stock_orders"), 500, ⟨1, 1⟩, ("2025-01-01")⟩]).1.transaction_id = ("2")) := by
  have h1 := (thm_C9_fulfillment_stock ("A4") ("2025-01-02") 600 ⟨5, 1⟩
    [⟨("A4"), ("stock_orders"), 500, ⟨1, 1⟩, ("2025-01-01")⟩]).1 (by decide)
  have h2 := (thm_C9_fulfillment_stock ("A4") ("2025-01-02") 50 ⟨5, 1⟩
    [⟨("A4"), ("stock_orders"), 500, ⟨1, 1⟩, ("2025-01-01")⟩]).2 (by decide)
  exact ⟨⟨h1.1, h1.2.2⟩, ⟨h2.1, by rw [h2.2.2]; decide⟩⟩
